import Mathlib

/-!
Verification of the personal-journal frontend: a shallow embedding of the
API client (src/journal_frontend/src/api/client.js) and of the App
component's UI state handlers, with theorems for the specification's
testable properties.
-/

namespace Journal

/-- JSON values as produced by a successful response-body parse. -/
inductive Json where
  | null
  | bool (b : Bool)
  | num (n : Int)
  | str (s : String)
  | arr (elems : List Json)
  | obj (fields : List (String × Json))

/-- JavaScript truthiness of a JSON value (null, false, 0 and the empty
string are falsy; every object and array is truthy). -/
def Json.truthy : Json → Bool
  | .null => false
  | .bool b => b
  | .num n => n != 0
  | .str s => s != ""
  | .arr _ => true
  | .obj _ => true

/-- JavaScript property lookup on a parsed JSON value: a field of an
object, undefined (none) on every other value. -/
def Json.getField : Json → String → Option Json
  | .obj fields, k => fields.lookup k
  | _, _ => none

mutual

/-- JavaScript string coercion of a value, as applied by the Error
constructor and by localStorage.setItem. -/
def Json.toJSString : Json → String
  | .null => "null"
  | .bool b => cond b "true" "false"
  | .num n => toString n
  | .str s => s
  | .arr elems => String.intercalate "," (Json.arrElemStrings elems)
  | .obj _ => "[object Object]"

/-- Array elements under JavaScript string coercion: null renders as the
empty string inside an array, every other element by its own coercion. -/
def Json.arrElemStrings : List Json → List String
  | [] => []
  | .null :: rest => "" :: Json.arrElemStrings rest
  | x :: rest => Json.toJSString x :: Json.arrElemStrings rest

end

/-- Substring containment on the underlying character lists, the model of
JavaScript String.includes. -/
def includesSubstr (s pat : String) : Bool :=
  (List.range (s.data.length + 1)).any fun i =>
    (s.data.drop i).take pat.data.length == pat.data

/-- An HTTP response as observed by handleResponse: the status line, the
content-type header (none when the header is absent), the outcome of
res.json() (none when parsing throws) and the outcome of res.text(). -/
structure Response where
  status : Nat
  statusText : String
  contentType : Option String
  jsonBody : Option Json
  textBody : String

/-- res.ok of the fetch API: the status is in the 2xx range. -/
def Response.ok (r : Response) : Bool :=
  (200 ≤ r.status) && (r.status ≤ 299)

/-- A response body after handleResponse's branch on the content type:
parsed JSON, or raw text. -/
inductive Body where
  | json (j : Json)
  | text (s : String)

/-- The observable outcome of handleResponse: the returned body, or the
thrown Error's message together with its status and data fields. -/
inductive HandleResult where
  | success (body : Body)
  | error (message : String) (status : Nat) (data : Body)

/-- res.statusText with the "Request failed" fallback, the model of the
JavaScript expression res.statusText with a default on the empty string. -/
def statusTextOrDefault (r : Response) : String :=
  if r.statusText = "" then "Request failed" else r.statusText

/-- handleResponse from client.js: pick the body representation from the
content type (a JSON parse failure yields the empty object), return the
body on a 2xx status, and otherwise throw an error whose message prefers a
truthy detail field of a truthy JSON body, falling back to the status
text or "Request failed". -/
def handleResponse (r : Response) : HandleResult :=
  let contentType := r.contentType.getD ""
  let isJson := includesSubstr contentType "application/json"
  let body : Body :=
    if isJson then .json (r.jsonBody.getD (.obj [])) else .text r.textBody
  if r.ok then
    .success body
  else
    let message :=
      match body with
      | .json j =>
        if j.truthy then
          match j.getField "detail" with
          | some d => if d.truthy then d.toJSString else statusTextOrDefault r
          | none => statusTextOrDefault r
        else statusTextOrDefault r
      | .text _ => statusTextOrDefault r
    .error message r.status body

/-- JavaScript truthiness of an optional string (an environment variable:
undefined or the empty string are falsy). -/
def strTruthy : Option String → Bool
  | none => false
  | some s => s != ""

/-- The JavaScript or-else on optional strings: the left value when it is
truthy, otherwise the right value. -/
def jsOrStr (a b : Option String) : Option String :=
  if strTruthy a then a else b

/-- JavaScript String.trim modelled on the character list (strips leading
and trailing whitespace). -/
def jsTrim (s : String) : String :=
  ⟨((s.data.dropWhile Char.isWhitespace).reverse.dropWhile Char.isWhitespace).reverse⟩

/-- resolveBaseUrl from client.js: the first truthy value among
process.env.REACT_APP_API_BASE, window.ENV.REACT_APP_API_BASE,
process.env.VITE_API_BASE and window.ENV.VITE_API_BASE, kept only when it
is non-empty after trimming, otherwise the fixed default endpoint. -/
def resolveBaseUrl (procReact rtReact procVite rtVite : Option String) : String :=
  let envBase := jsOrStr procReact (jsOrStr rtReact (jsOrStr procVite rtVite))
  match envBase with
  | some s => if s ≠ "" ∧ jsTrim s ≠ "" then s else "http://localhost:3001"
  | none => "http://localhost:3001"

/-- The browser-local storage as seen through the auth_token key: the
stored value, and whether every storage access throws. -/
structure Storage where
  token : Option String
  failing : Bool
deriving Repr, DecidableEq

/-- getToken from client.js: the stored auth_token, with a thrown storage
access swallowed into null. -/
def getToken (st : Storage) : Option String :=
  if st.failing then none else st.token

/-- setToken from client.js: store the string coercion of a truthy token,
remove the entry for a falsy one, and swallow storage errors (a failing
store is left unchanged). -/
def setToken (tok : Option Json) (st : Storage) : Storage :=
  if st.failing then st
  else
    match tok with
    | some j =>
      if j.truthy then { st with token := some j.toJSString }
      else { st with token := none }
    | none => { st with token := none }

/-- The header set built for a request: the JSON content type and the
optional Authorization value. -/
structure Headers where
  contentType : String
  authorization : Option String
deriving Repr, DecidableEq

/-- buildHeaders from client.js: always the JSON content type; for an
authorized request additionally a bearer Authorization header when a
truthy token is stored. -/
def buildHeaders (authorized : Bool) (st : Storage) : Headers :=
  { contentType := "application/json"
    authorization :=
      if authorized then
        match getToken st with
        | some t => if t != "" then some ("Bearer " ++ t) else none
        | none => none
      else none }

/-- JavaScript truthiness of a handled response body. -/
def Body.truthy : Body → Bool
  | .json j => j.truthy
  | .text s => s != ""

/-- JavaScript property lookup on a handled response body. -/
def Body.getField : Body → String → Option Json
  | .json j, k => j.getField k
  | .text _, _ => none

/-- api.login from client.js, given the HTTP response: hand the response
to handleResponse, and on success store a truthy access_token field of a
truthy body before returning the body. -/
def login (r : Response) (st : Storage) : HandleResult × Storage :=
  match handleResponse r with
  | .success data =>
    let st' :=
      if data.truthy then
        match data.getField "access_token" with
        | some tok => if tok.truthy then setToken (some tok) st else st
        | none => st
      else st
    (.success data, st')
  | .error m s d => (.error m s d, st)

/-- api.logout from client.js: clear the stored token. -/
def logout (st : Storage) : Storage :=
  setToken none st

/-- A journal entry as held in the App component's entries list. -/
structure Entry where
  id : Nat
  title : String
  content : String
deriving Repr, DecidableEq

/-- The App component's draft form state: the id of the entry being
edited (none in create mode) and the two text fields. -/
structure Draft where
  id : Option Nat
  title : String
  content : String
deriving Repr, DecidableEq

/-- The slice of the App component's state the entry handlers touch: the
entries list, the draft, and the error message. -/
structure AppState where
  entries : List Entry
  draft : Draft
  err : String
deriving Repr, DecidableEq

/-- The empty draft the App component resets to. -/
def emptyDraft : Draft :=
  { id := none, title := "", content := "" }

/-- The App component's initial state. -/
def initState : AppState :=
  { entries := [], draft := emptyDraft, err := "" }

/-- The client-layer outcome of an async api call as seen by a handler:
the successful value, or the thrown error's optional message string. -/
inductive CallOutcome (α : Type) where
  | ok (value : α)
  | thrown (message : Option String)
deriving Repr, DecidableEq

/-- The JavaScript expression that renders a caught error: its message
when truthy, otherwise the handler's fallback text. -/
def errMsg (message : Option String) (fallback : String) : String :=
  match message with
  | some s => if s = "" then fallback else s
  | none => fallback

/-- onCreate from the App component: on success clear the error, reset
the draft and prepend the created entry; on failure set the error
message and leave the rest of the state alone. -/
def onCreate (outcome : CallOutcome Entry) (s : AppState) : AppState :=
  match outcome with
  | .ok created =>
    { s with err := "", draft := emptyDraft, entries := created :: s.entries }
  | .thrown e => { s with err := errMsg e "Create failed" }

/-- onSelectEdit from the App component: load the clicked entry into the
draft. -/
def onSelectEdit (entry : Entry) (s : AppState) : AppState :=
  { s with draft := { id := some entry.id, title := entry.title, content := entry.content } }

/-- onUpdate from the App component: return early on a falsy draft id
(null, or the JavaScript-falsy id 0); on success replace the matching
entry with the server's result and reset the draft; on failure set the
error message only. -/
def onUpdate (outcome : CallOutcome Entry) (s : AppState) : AppState :=
  match s.draft.id with
  | none => s
  | some did =>
    if did = 0 then s
    else
      match outcome with
      | .ok updated =>
        { s with err := ""
                 entries := s.entries.map fun it => if it.id = did then updated else it
                 draft := emptyDraft }
      | .thrown e => { s with err := errMsg e "Update failed" }

/-- onDelete from the App component: on success clear the error and drop
the entry with the given id from the list (the draft is not touched); on
failure set the error message only. -/
def onDelete (id : Nat) (outcome : CallOutcome Unit) (s : AppState) : AppState :=
  match outcome with
  | .ok _ => { s with err := "", entries := s.entries.filter fun it => it.id != id }
  | .thrown e => { s with err := errMsg e "Delete failed" }

/-- The cancel-edit button of the App component: reset the draft. -/
def onCancelEdit (s : AppState) : AppState :=
  { s with draft := emptyDraft }

/-- The user-driven operations of the entry editor, each carrying the
settlement of its api call. -/
inductive UIOp where
  | selectEdit (entry : Entry)
  | create (outcome : CallOutcome Entry)
  | update (outcome : CallOutcome Entry)
  | delete (id : Nat) (outcome : CallOutcome Unit)
  | cancel
deriving Repr

/-- Dispatch of an operation to its App component handler. -/
def applyOp : UIOp → AppState → AppState
  | .selectEdit e, s => onSelectEdit e s
  | .create o, s => onCreate o s
  | .update o, s => onUpdate o s
  | .delete id o, s => onDelete id o s
  | .cancel, s => onCancelEdit s

/-- The side condition a UI interaction satisfies by construction: an
edit click names an entry of the rendered list. -/
def opFromUI : UIOp → AppState → Prop
  | .selectEdit e, s => e ∈ s.entries
  | _, _ => True

/-- The specification's draft invariant: an edit-mode draft id is the id
of some currently listed entry, and a create-mode draft is empty. -/
def draftInvariant (s : AppState) : Bool :=
  match s.draft.id with
  | some i => s.entries.any fun e => e.id == i
  | none => s.draft == emptyDraft

/-- A base-URL source that is not set to a non-blank value: absent, or
blank after trimming (this covers the empty string). -/
def blankSource : Option String → Prop
  | none => True
  | some s => jsTrim s = ""

/-- A concrete non-2xx non-JSON response with an empty status text, on
which handleResponse's message is the fallback rather than the status
text. -/
def emptyStatusTextResp : Response :=
  { status := 502, statusText := "", contentType := some "text/html",
    jsonBody := none, textBody := "upstream down" }

/-- The concrete entry driving the C3 counterexample run. -/
def cxEntry : Entry := { id := 1, title := "t", content := "c" }

/-- A concrete state with entry 1 selected for editing, used to witness
the failure-handling claim. -/
def c4EditState : AppState :=
  { entries := [{ id := 1, title := "t", content := "c" }],
    draft := { id := some 1, title := "t", content := "c" }, err := "" }

/-! ## Theorems for the claims -/

/-- Claim C1: a non-2xx response whose content type indicates JSON and
whose parsed body carries a truthy detail field with string value X makes
handleResponse throw an error whose message is X, whose status is the
response's status, and whose data is the parsed body. -/
theorem handleResponse_json_detail (r : Response) (j : Json) (X : String)
    (hok : r.ok = false)
    (hct : includesSubstr (r.contentType.getD "") "application/json" = true)
    (hparse : r.jsonBody = some j)
    (hdetail : j.getField "detail" = some (.str X))
    (hX : X ≠ "") :
    handleResponse r = .error X r.status (.json j) := by
  cases j with
  | obj fields =>
    simp only [handleResponse, hok, hct, hparse, Option.getD_some, if_true,
      Bool.false_eq_true, if_false, Json.truthy, hdetail, bne_iff_ne, ne_eq, hX,
      not_false_eq_true, Json.toJSString]
  | null => simp [Json.getField] at hdetail
  | bool b => simp [Json.getField] at hdetail
  | num n => simp [Json.getField] at hdetail
  | str s => simp [Json.getField] at hdetail
  | arr elems => simp [Json.getField] at hdetail

/-- Witness for C1 at a concrete 404 JSON response carrying a detail. -/
theorem handleResponse_json_detail_witness :
    handleResponse
        { status := 404, statusText := "Not Found",
          contentType := some "application/json",
          jsonBody := some (.obj [("detail", .str "nope")]), textBody := "" }
      = .error "nope" 404 (.json (.obj [("detail", .str "nope")])) :=
  handleResponse_json_detail
    { status := 404, statusText := "Not Found",
      contentType := some "application/json",
      jsonBody := some (.obj [("detail", .str "nope")]), textBody := "" }
    (.obj [("detail", .str "nope")]) "nope" (by rfl) (by rfl) rfl rfl (by decide)

/-- Counterexample to claim C5 as stated: on a non-2xx non-JSON response
whose status text is empty, the thrown message is the fallback
"Request failed", which differs from the status text. -/
theorem handleResponse_nonjson_statusText_cx :
    handleResponse emptyStatusTextResp
        = .error "Request failed" 502 (.text "upstream down")
      ∧ "Request failed" ≠ emptyStatusTextResp.statusText :=
  ⟨rfl, by decide⟩

/-- Claim C5 as amended: a non-2xx response whose content type does not
indicate JSON makes handleResponse throw an error whose message is the
status text when that is non-empty and "Request failed" otherwise, with
the text body as data. -/
theorem handleResponse_nonjson (r : Response)
    (hok : r.ok = false)
    (hct : includesSubstr (r.contentType.getD "") "application/json" = false) :
    handleResponse r = .error (statusTextOrDefault r) r.status (.text r.textBody) := by
  simp only [handleResponse, hok, hct, Bool.false_eq_true, if_false]

/-- Witness for the amended C5 at a concrete 500 HTML response. -/
theorem handleResponse_nonjson_witness :
    handleResponse
        { status := 500, statusText := "Server Error", contentType := some "text/html",
          jsonBody := none, textBody := "boom" }
      = .error (statusTextOrDefault
          { status := 500, statusText := "Server Error", contentType := some "text/html",
            jsonBody := none, textBody := "boom" }) 500 (.text "boom") :=
  handleResponse_nonjson
    { status := 500, statusText := "Server Error", contentType := some "text/html",
      jsonBody := none, textBody := "boom" } (by rfl) (by rfl)

/-- Claim C10: a non-2xx response whose content type indicates JSON but
whose body fails to parse still throws the HTTP error: the data is the
empty object and the message falls back to the status text, or to
"Request failed" when the status text is empty. -/
theorem handleResponse_parse_failure (r : Response)
    (hok : r.ok = false)
    (hct : includesSubstr (r.contentType.getD "") "application/json" = true)
    (hparse : r.jsonBody = none) :
    handleResponse r = .error (statusTextOrDefault r) r.status (.json (.obj [])) := by
  simp only [handleResponse, hok, hct, hparse, Option.getD_none, if_true,
    Bool.false_eq_true, if_false, Json.truthy, Json.getField, List.lookup]

/-- Witness for C10 at a concrete 500 JSON response with an unparseable
body. -/
theorem handleResponse_parse_failure_witness :
    handleResponse
        { status := 500, statusText := "Server Error",
          contentType := some "application/json; charset=utf-8",
          jsonBody := none, textBody := "" }
      = .error (statusTextOrDefault
          { status := 500, statusText := "Server Error",
            contentType := some "application/json; charset=utf-8",
            jsonBody := none, textBody := "" }) 500 (.json (.obj [])) :=
  handleResponse_parse_failure
    { status := 500, statusText := "Server Error",
      contentType := some "application/json; charset=utf-8",
      jsonBody := none, textBody := "" } (by rfl) (by rfl) rfl

/-- The JavaScript or-else keeps blankness of its two operands. -/
theorem blankSource_jsOrStr (a b : Option String)
    (ha : blankSource a) (hb : blankSource b) : blankSource (jsOrStr a b) := by
  unfold jsOrStr
  split
  · exact ha
  · exact hb

/-- Claim C6: when none of the four base-URL sources is set to a
non-blank value (absent, empty, or whitespace only), resolveBaseUrl
returns the fixed default endpoint; and whenever the or-else chain of
the four sources (which selects the first truthy value) yields a value
that is blank after trimming, the default is returned as well, so a
whitespace-only first defined value forces the default even when a later
source is non-blank. -/
theorem resolveBaseUrl_default (a b c d : Option String) :
    (blankSource a → blankSource b → blankSource c → blankSource d →
        resolveBaseUrl a b c d = "http://localhost:3001")
      ∧ (∀ s, jsOrStr a (jsOrStr b (jsOrStr c d)) = some s → jsTrim s = "" →
        resolveBaseUrl a b c d = "http://localhost:3001") := by
  constructor
  · intro ha hb hc hd
    have henv : blankSource (jsOrStr a (jsOrStr b (jsOrStr c d))) :=
      blankSource_jsOrStr a _ ha
        (blankSource_jsOrStr b _ hb (blankSource_jsOrStr c d hc hd))
    simp only [resolveBaseUrl]
    cases hE : jsOrStr a (jsOrStr b (jsOrStr c d)) with
    | none => rfl
    | some s =>
      rw [hE] at henv
      simp only [blankSource] at henv
      simp [henv]
  · intro s hE hs
    simp only [resolveBaseUrl]
    rw [hE]
    simp [hs]

/-- Witness for C6: with every source blank the default is resolved, and
a whitespace-only first source forces the default even over a non-blank
third source. -/
theorem resolveBaseUrl_default_witness :
    resolveBaseUrl (some " ") none (some "") none = "http://localhost:3001"
      ∧ resolveBaseUrl (some " ") none (some "http://x") none = "http://localhost:3001" :=
  ⟨(resolveBaseUrl_default (some " ") none (some "") none).1
      (show jsTrim " " = "" by decide) trivial (show jsTrim "" = "" by decide) trivial,
    (resolveBaseUrl_default (some " ") none (some "http://x") none).2 " " rfl
      (show jsTrim " " = "" by decide)⟩

/-- Claim C2: a successful login whose JSON body carries a non-empty
string access_token t leaves the storage holding t, so that an authorized
header set built afterwards carries exactly "Bearer " followed by t. -/
theorem login_bearer_roundtrip (r : Response) (st : Storage) (j : Json) (t : String)
    (hfail : st.failing = false)
    (hok : r.ok = true)
    (hct : includesSubstr (r.contentType.getD "") "application/json" = true)
    (hparse : r.jsonBody = some j)
    (htok : j.getField "access_token" = some (.str t))
    (ht : t ≠ "") :
    (buildHeaders true (login r st).2).authorization = some ("Bearer " ++ t) := by
  cases j with
  | obj fields =>
    simp only [login, handleResponse, hok, hct, hparse, Option.getD_some, if_true,
      Body.truthy, Json.truthy, Body.getField, htok, bne_iff_ne, ne_eq, ht,
      not_false_eq_true, setToken, hfail, Json.toJSString, buildHeaders, getToken]
    simp [ht]
  | null => simp [Json.getField] at htok
  | bool b => simp [Json.getField] at htok
  | num n => simp [Json.getField] at htok
  | str s => simp [Json.getField] at htok
  | arr elems => simp [Json.getField] at htok

/-- Witness for C2 at a concrete 200 login response storing the token
"abc" into an initially empty working store. -/
theorem login_bearer_roundtrip_witness :
    (buildHeaders true
        (login
          { status := 200, statusText := "OK", contentType := some "application/json",
            jsonBody := some (.obj [("access_token", .str "abc")]), textBody := "" }
          { token := none, failing := false }).2).authorization
      = some ("Bearer " ++ "abc") :=
  login_bearer_roundtrip
    { status := 200, statusText := "OK", contentType := some "application/json",
      jsonBody := some (.obj [("access_token", .str "abc")]), textBody := "" }
    { token := none, failing := false }
    (.obj [("access_token", .str "abc")]) "abc" rfl (by rfl) (by rfl) rfl rfl (by decide)

/-- Claim C7: after logout on a working store the token entry is cleared
and an authorized header set built afterwards carries only the JSON
content type, with no Authorization value. -/
theorem logout_clears_bearer (st : Storage) (hfail : st.failing = false) :
    (logout st).token = none
      ∧ buildHeaders true (logout st)
          = { contentType := "application/json", authorization := none } := by
  simp [logout, setToken, hfail, buildHeaders, getToken]

/-- Witness for C7 at a store holding the token "abc". -/
theorem logout_clears_bearer_witness :
    (logout { token := some "abc", failing := false }).token = none
      ∧ buildHeaders true (logout { token := some "abc", failing := false })
          = { contentType := "application/json", authorization := none } :=
  logout_clears_bearer { token := some "abc", failing := false } rfl

/-- Claim C9: under a failing store getToken yields null, setToken
returns normally leaving the store unchanged, and an authorized header
set carries only the JSON content type. -/
theorem storage_failure_no_bearer (st : Storage) (tok : Option Json)
    (hfail : st.failing = true) :
    getToken st = none ∧ setToken tok st = st
      ∧ buildHeaders true st
          = { contentType := "application/json", authorization := none } := by
  simp [getToken, setToken, hfail, buildHeaders]

/-- Witness for C9 at a concrete failing store and a string token. -/
theorem storage_failure_no_bearer_witness :
    getToken { token := none, failing := true } = none
      ∧ setToken (some (.str "abc")) { token := none, failing := true }
          = { token := none, failing := true }
      ∧ buildHeaders true { token := none, failing := true }
          = { contentType := "application/json", authorization := none } :=
  storage_failure_no_bearer { token := none, failing := true } (some (.str "abc")) rfl

/-- Counterexample to claim C3 as stated: create an entry, select it for
editing (a click on a listed entry), then delete it. Each step is one of
the listed operations, yet the resulting state has an edit-mode draft
whose id matches no listed entry, because onDelete does not touch the
draft. -/
theorem draftInvariant_cx :
    opFromUI (.selectEdit cxEntry) (applyOp (.create (.ok cxEntry)) initState)
      ∧ draftInvariant
          (applyOp (.delete 1 (.ok ()))
            (applyOp (.selectEdit cxEntry)
              (applyOp (.create (.ok cxEntry)) initState))) = false := by
  constructor
  · simp [opFromUI, applyOp, onCreate, initState]
  · rfl

/-- Claim C3 as amended: the draft invariant is preserved by select-edit
(of a listed entry), create, update, cancel, and delete of any id other
than the one being edited; deleting the entry being edited is the sole
exception. -/
theorem draftInvariant_preserved (op : UIOp) (s : AppState)
    (hui : opFromUI op s)
    (hdel : ∀ id o, op = .delete id o → s.draft.id ≠ some id)
    (hinv : draftInvariant s = true) :
    draftInvariant (applyOp op s) = true := by
  cases op with
  | selectEdit e =>
    simp only [applyOp, onSelectEdit, draftInvariant]
    exact List.any_eq_true.mpr ⟨e, hui, by simp⟩
  | create outcome =>
    cases outcome with
    | ok created => simp [applyOp, onCreate, draftInvariant, emptyDraft]
    | thrown m => simpa [applyOp, onCreate, draftInvariant] using hinv
  | update outcome =>
    rcases hdraft : s.draft.id with _ | did
    · simpa [applyOp, onUpdate, hdraft] using hinv
    · by_cases hz : did = 0
      · simpa [applyOp, onUpdate, hdraft, hz] using hinv
      · cases outcome with
        | ok updated => simp [applyOp, onUpdate, hdraft, hz, draftInvariant, emptyDraft]
        | thrown m =>
          simp only [applyOp, onUpdate, hdraft, hz, if_false, draftInvariant]
          simpa [draftInvariant, hdraft] using hinv
  | delete id outcome =>
    cases outcome with
    | ok u =>
      rcases hdraft : s.draft.id with _ | j
      · simpa [applyOp, onDelete, draftInvariant, hdraft] using hinv
      · have hne : j ≠ id := by
          intro h
          exact hdel id (.ok u) rfl (by rw [hdraft, h])
        simp only [draftInvariant, hdraft] at hinv
        obtain ⟨e, he, hej⟩ := List.any_eq_true.mp hinv
        simp only [applyOp, onDelete, draftInvariant, hdraft]
        refine List.any_eq_true.mpr ⟨e, List.mem_filter.mpr ⟨he, ?_⟩, hej⟩
        have : e.id = j := by simpa using hej
        simp [this, hne]
    | thrown m => simpa [applyOp, onDelete, draftInvariant] using hinv
  | cancel => simp [applyOp, onCancelEdit, draftInvariant, emptyDraft]

/-- Witness for the amended C3: deleting an id other than the edited one
from a reachable two-entry state keeps the invariant. -/
theorem draftInvariant_preserved_witness :
    draftInvariant
        (applyOp (.delete 2 (.ok ()))
          { entries := [{ id := 1, title := "a", content := "b" },
                        { id := 2, title := "c", content := "d" }],
            draft := { id := some 1, title := "a", content := "b" }, err := "" })
      = true :=
  draftInvariant_preserved (.delete 2 (.ok ()))
    { entries := [{ id := 1, title := "a", content := "b" },
                  { id := 2, title := "c", content := "d" }],
      draft := { id := some 1, title := "a", content := "b" }, err := "" }
    trivial
    (fun id o h => by cases h; decide)
    (by rfl)

/-- The rendered error text of a caught handler error is never empty when
the handler's fallback text is non-empty. -/
theorem errMsg_ne_empty (m : Option String) (fb : String) (hfb : fb ≠ "") :
    errMsg m fb ≠ "" := by
  cases m with
  | none => simpa [errMsg] using hfb
  | some s => by_cases hs : s = "" <;> simp [errMsg, hs, hfb]

/-- Claim C4: in every state, when the client call of a create, update
or delete handler throws, the entries list is exactly what it was before,
and the handler sets a non-empty error message; for update the message
part holds under a truthy draft id, which is the only condition under
which the handler reaches its client call at all (it returns before the
call otherwise). -/
theorem failure_keeps_entries (s : AppState) (m : Option String) (id : Nat) :
    ((onCreate (.thrown m) s).entries = s.entries
        ∧ (onCreate (.thrown m) s).err ≠ "")
      ∧ ((onUpdate (.thrown m) s).entries = s.entries
        ∧ (∀ did, s.draft.id = some did → did ≠ 0 →
            (onUpdate (.thrown m) s).err ≠ ""))
      ∧ ((onDelete id (.thrown m) s).entries = s.entries
        ∧ (onDelete id (.thrown m) s).err ≠ "") := by
  refine ⟨⟨by simp [onCreate], ?_⟩, ⟨?_, ?_⟩, by simp [onDelete], ?_⟩
  · simpa [onCreate] using errMsg_ne_empty m "Create failed" (by decide)
  · rcases h : s.draft.id with _ | did
    · simp [onUpdate, h]
    · by_cases hz : did = 0 <;> simp [onUpdate, h, hz]
  · intro did hedit hdid
    simpa [onUpdate, hedit, hdid] using errMsg_ne_empty m "Update failed" (by decide)
  · simpa [onDelete] using errMsg_ne_empty m "Delete failed" (by decide)

/-- Witness for C4: a create and a delete failure at the create-mode
initial state, and an update failure at a concrete editing state, each
thrown with message "boom". -/
theorem failure_keeps_entries_witness :
    ((onCreate (.thrown (some "boom")) initState).entries = initState.entries
        ∧ (onCreate (.thrown (some "boom")) initState).err ≠ "")
      ∧ ((onUpdate (.thrown (some "boom")) c4EditState).entries = c4EditState.entries
        ∧ (onUpdate (.thrown (some "boom")) c4EditState).err ≠ "")
      ∧ ((onDelete 5 (.thrown (some "boom")) initState).entries = initState.entries
        ∧ (onDelete 5 (.thrown (some "boom")) initState).err ≠ "") :=
  ⟨(failure_keeps_entries initState (some "boom") 5).1,
    ⟨(failure_keeps_entries c4EditState (some "boom") 5).2.1.1,
      (failure_keeps_entries c4EditState (some "boom") 5).2.1.2 1 rfl (by decide)⟩,
    (failure_keeps_entries initState (some "boom") 5).2.2⟩

/-- Claim C8: a successful create prepends the server's entry to the
prior entries list, which is otherwise untouched (the handler performs no
refetch: the new list is a pure function of the old one and the created
entry). -/
theorem create_prepends (s : AppState) (created : Entry) :
    (onCreate (.ok created) s).entries = created :: s.entries := by
  simp [onCreate]

end Journal
